import Mathlib

/-!
Shallow embedding of the Temporal Debt core systems
(`src/assets/src/src/systems/debt_manager.py`, `src/src/systems/time_engine.py`,
`src/assets/src/src/systems/anchor_system.py`, `src/src/systems/momentum_system.py`,
`src/assets/src/systems/resonance_system.py`,
`src/assets/src/systems/time_reversal_system.py`) together with the constants of
`src/assets/src/src/core/settings.py`.

Python floats are modelled as rationals; every concrete scenario below uses
dyadic values, on which IEEE-754 double arithmetic is exact, so the rational
results coincide with the float results of the source.  The event bus
(`EventManager.emit` / `subscribe`) is out of scope of the core and is pure
side effect, so emissions are dropped from the state.  Purely visual data that
no other code reads (particle lists, pygame rendering state) and fields fed by
`random` are omitted or passed in as explicit parameters where noted.
-/

namespace TemporalDebt

/-! ### Settings (src/assets/src/src/core/settings.py) -/

/-- `Settings.DEBT_ACCRUAL_RATE` (line 38). -/
def DEBT_ACCRUAL_RATE : ℚ := 3/2

/-- `Settings.BANKRUPTCY_THRESHOLD` (line 52). -/
def BANKRUPTCY_THRESHOLD : ℚ := 20

/-- `Settings.BANKRUPTCY_SURVIVAL_TIME` (line 55). -/
def BANKRUPTCY_SURVIVAL_TIME : ℚ := 5

/-- `Settings.DEBT_TIERS[t]["interest"]`; the table has keys 0-5 and the
`_ => 3` arm is tier 5's value (callers never index past 5). -/
def tier_interest : ℕ → ℚ
  | 0 => 1
  | 1 => 1
  | 2 => 5/4
  | 3 => 3/2
  | 4 => 2
  | _ => 3

/-- `Settings.DEBT_TIERS[t]["speed"]`; the `_ => 4` arm is tier 5's value. -/
def tier_speed : ℕ → ℚ
  | 0 => 1
  | 1 => 1
  | 2 => 3/2
  | 3 => 2
  | 4 => 3
  | _ => 4

/-- `Settings.MAX_ANCHORS`. -/
def MAX_ANCHORS : ℤ := 3

/-- `Settings.ANCHOR_DECAY_TIME`. -/
def ANCHOR_DECAY_TIME : ℚ := 30

/-- `Settings.ANCHOR_RECALL_DEBT`. -/
def ANCHOR_RECALL_DEBT : ℚ := 2

/-! ### Debt Manager (src/assets/src/src/systems/debt_manager.py) -/

/-- The mutable state of `DebtManager` (`__init__`, lines 44-63).  The
`_event_manager` and `_time_engine` references carry no debt state and are
dropped. -/
structure DebtState where
  current_debt : ℚ
  current_tier : ℕ
  is_bankrupt : Bool
  bankruptcy_timer : ℚ
  total_debt_accrued : ℚ
  total_debt_repaid : ℚ
  peak_debt : ℚ
  times_bankrupt : ℕ
  previous_tier : ℕ
deriving Repr, DecidableEq

/-- The freshly constructed `DebtManager` state. -/
def DebtState.init : DebtState :=
  { current_debt := 0
    current_tier := 0
    is_bankrupt := false
    bankruptcy_timer := 0
    total_debt_accrued := 0
    total_debt_repaid := 0
    peak_debt := 0
    times_bankrupt := 0
    previous_tier := 0 }

/-- The tier value computed by `DebtManager._update_tier` (lines 222-234,
the if-chain under the comment "Correct tier calculation"; the loop at lines
213-220 stores into the same `new_tier` local and its result is overwritten
unconditionally by the if-chain, so it has no effect). -/
def new_tier_of (d : ℚ) : ℕ :=
  if d = 0 then 0
  else if d ≤ 3 then 1
  else if d ≤ 6 then 2
  else if d ≤ 10 then 3
  else if d ≤ 15 then 4
  else 5

/-- `DebtManager._update_tier` (lines 200-244): recompute the tier and commit
it only when it differs from `_previous_tier` (the equal case emits nothing
and writes nothing). -/
def update_tier (s : DebtState) : DebtState :=
  let n := new_tier_of s.current_debt
  if n ≠ s.previous_tier then
    { s with current_tier := n, previous_tier := n }
  else s

/-- `DebtManager.get_interest_rate` (lines 267-274). -/
def get_interest_rate (s : DebtState) : ℚ :=
  tier_interest s.current_tier

/-- `DebtManager.get_world_speed_multiplier` (lines 276-285). -/
def get_world_speed_multiplier (s : DebtState) : ℚ :=
  if s.is_bankrupt then 5 else tier_speed s.current_tier

/-- `DebtManager._trigger_bankruptcy` (lines 246-255). -/
def trigger_bankruptcy (s : DebtState) : DebtState :=
  { s with is_bankrupt := true
           bankruptcy_timer := 0
           times_bankrupt := s.times_bankrupt + 1 }

/-- `DebtManager._end_bankruptcy` (lines 257-265). -/
def end_bankruptcy (s : DebtState) : DebtState :=
  { s with is_bankrupt := false, bankruptcy_timer := 0 }

/-- `DebtManager.accrue_debt` (lines 89-127). -/
def accrue_debt (amount : ℚ) (s : DebtState) : DebtState :=
  if amount ≤ 0 then s
  else
    let actual := amount * get_interest_rate s
    let s1 := { s with current_debt := s.current_debt + actual
                       total_debt_accrued := s.total_debt_accrued + actual
                       peak_debt := max s.peak_debt (s.current_debt + actual) }
    let s2 := update_tier s1
    if s2.current_debt ≥ BANKRUPTCY_THRESHOLD ∧ s2.is_bankrupt = false then
      trigger_bankruptcy s2
    else s2

/-- `DebtManager.repay_debt` (lines 129-167). -/
def repay_debt (real_dt : ℚ) (s : DebtState) : DebtState :=
  if s.current_debt ≤ 0 then s
  else
    let s1 := { s with current_debt := max 0 (s.current_debt - real_dt)
                       total_debt_repaid := s.total_debt_repaid + real_dt }
    let s2 :=
      if s1.is_bankrupt then
        let s1b := { s1 with bankruptcy_timer := s1.bankruptcy_timer + real_dt }
        if s1b.bankruptcy_timer ≥ BANKRUPTCY_SURVIVAL_TIME then end_bankruptcy s1b
        else if s1b.current_debt = 0 then end_bankruptcy s1b
        else s1b
      else s1
    update_tier s2

/-- `DebtManager.absorb_debt` (lines 169-198); returns the Python return value
(the absorbed amount) together with the new state. -/
def absorb_debt (amount : ℚ) (s : DebtState) : ℚ × DebtState :=
  let actual := min amount s.current_debt
  let s1 := { s with current_debt := s.current_debt - actual }
  (actual, update_tier s1)

/-! ### Time Engine (src/src/systems/time_engine.py)

`TimeEngine` holds a reference to the `DebtManager`; the pair is modelled as
one composite state with the reference always set (the `self._debt_manager`
truthiness guards therefore always take the set branch).  The module imports
`Settings` from `src/src/core/settings.py`, which is absent from the tree;
the constants used (`DEBT_ACCRUAL_RATE`) are taken from the settings file the
sibling systems use, `src/assets/src/src/core/settings.py`. -/

/-- `TimeEngine.__init__` state (lines 47-60) plus the attached debt manager. -/
structure TimeEngine where
  frozen : Bool
  time_scale : ℚ
  freeze_duration : ℚ
  total_freeze_time : ℚ
  last_game_dt : ℚ
  debt : DebtState
deriving Repr, DecidableEq

/-- A freshly constructed `TimeEngine` wired to a fresh `DebtManager`. -/
def TimeEngine.init : TimeEngine :=
  { frozen := false
    time_scale := 1
    freeze_duration := 0
    total_freeze_time := 0
    last_game_dt := 0
    debt := DebtState.init }

/-- `TimeEngine.freeze` (lines 81-98). -/
def TimeEngine.freeze (e : TimeEngine) : TimeEngine :=
  if e.frozen then e
  else { e with frozen := true, freeze_duration := 0, time_scale := 0 }

/-- `TimeEngine._update_time_scale` (lines 156-168) with the debt manager set. -/
def TimeEngine.update_time_scale (e : TimeEngine) : TimeEngine :=
  { e with time_scale := get_world_speed_multiplier e.debt }

/-- `TimeEngine.unfreeze` (lines 100-122). -/
def TimeEngine.unfreeze (e : TimeEngine) : TimeEngine :=
  if !e.frozen then e
  else
    let e1 := { e with frozen := false
                       total_freeze_time := e.total_freeze_time + e.freeze_duration }
    e1.update_time_scale

/-- `TimeEngine.update` (lines 124-154). -/
def TimeEngine.update (real_dt : ℚ) (e : TimeEngine) : TimeEngine :=
  if e.frozen then
    { e with freeze_duration := e.freeze_duration + real_dt
             debt := accrue_debt (real_dt * DEBT_ACCRUAL_RATE) e.debt
             last_game_dt := 0 }
  else
    let e1 := e.update_time_scale
    let e2 := { e1 with last_game_dt := real_dt * e1.time_scale }
    if e2.debt.current_debt > 0 then { e2 with debt := repay_debt real_dt e2.debt }
    else e2

/-- `TimeEngine.get_game_dt` (lines 170-177): returns the cached value. -/
def TimeEngine.get_game_dt (e : TimeEngine) : ℚ :=
  e.last_game_dt

/-! ### Anchor System (src/assets/src/src/systems/anchor_system.py) -/

/-- `TimeAnchor` (lines 26-62); `Vector2` positions are rational pairs. -/
structure TimeAnchor where
  position : ℚ × ℚ
  creation_time : ℚ
  remaining_time : ℚ
  index : ℕ
deriving Repr, DecidableEq

/-- The `AnchorSystem` state (lines 89-99): the three `Optional[TimeAnchor]`
slots.  `max_anchors`, `decay_time` and `recall_debt_cost` are copies of the
settings constants; the pulse-animation fields are render-only and omitted. -/
structure AnchorSystem where
  anchors : List (Option TimeAnchor)
deriving Repr, DecidableEq

/-- `AnchorSystem.__init__` slot list `[None, None, None]`. -/
def AnchorSystem.init : AnchorSystem :=
  { anchors := [none, none, none] }

/-- The first-empty-slot scan of `place_anchor` (lines 116-120). -/
def first_empty_slot (l : List (Option TimeAnchor)) : Option ℕ :=
  l.findIdx? fun o => o.isNone

/-- The fold inside `AnchorSystem._find_oldest_anchor` (lines 235-245): the
accumulator holds `(oldest_index, min_time)`, updated on a strict `<`. -/
def find_oldest_aux : List (ℕ × Option TimeAnchor) → Option (ℕ × ℚ) → Option ℕ
  | [], acc => acc.map Prod.fst
  | (_, none) :: rest, acc => find_oldest_aux rest acc
  | (i, some a) :: rest, acc =>
    match acc with
    | none => find_oldest_aux rest (some (i, a.remaining_time))
    | some (j, m) =>
      if a.remaining_time < m then find_oldest_aux rest (some (i, a.remaining_time))
      else find_oldest_aux rest (some (j, m))

/-- `AnchorSystem._find_oldest_anchor` (lines 235-245). -/
def find_oldest_anchor (l : List (Option TimeAnchor)) : Option ℕ :=
  find_oldest_aux l.enum none

/-- `AnchorSystem.remove_anchor` (lines 214-233); returns the Python boolean
with the new state.  The index is an `ℤ` as any Python int may be passed. -/
def remove_anchor (index : ℤ) (s : AnchorSystem) : Bool × AnchorSystem :=
  if index < 0 ∨ MAX_ANCHORS ≤ index then (false, s)
  else
    match s.anchors.getD index.toNat none with
    | none => (false, s)
    | some _ => (true, { s with anchors := s.anchors.set index.toNat none })

/-- `AnchorSystem.place_anchor` (lines 105-152): occupy the first free slot,
or evict the occupied slot with least `remaining_time` (via
`_find_oldest_anchor` and `remove_anchor`) and occupy it.  `creation_time` is
set to `0` exactly as in the source ("Will be set properly in game loop"). -/
def place_anchor (position : ℚ × ℚ) (s : AnchorSystem) :
    Option TimeAnchor × AnchorSystem :=
  let slot :=
    match first_empty_slot s.anchors with
    | some i => some (i, s)
    | none =>
      match find_oldest_anchor s.anchors with
      | some j => some (j, (remove_anchor (j : ℤ) s).2)
      | none => none
  match slot with
  | none => (none, s)
  | some (i, s1) =>
    let anchor : TimeAnchor :=
      { position := position
        creation_time := 0
        remaining_time := ANCHOR_DECAY_TIME
        index := i }
    (some anchor, { s1 with anchors := s1.anchors.set i (some anchor) })

/-- `AnchorSystem.recall_to_anchor` (lines 154-188), with the attached debt
manager state threaded through (`accrue_debt` is called when a slot is hit). -/
def recall_to_anchor (index : ℤ) (s : AnchorSystem) (d : DebtState) :
    Option (ℚ × ℚ) × AnchorSystem × DebtState :=
  if index < 0 ∨ MAX_ANCHORS ≤ index then (none, s, d)
  else
    match s.anchors.getD index.toNat none with
    | none => (none, s, d)
    | some a =>
      (some a.position,
       { s with anchors := s.anchors.set index.toNat none },
       accrue_debt ANCHOR_RECALL_DEBT d)

/-! ### Shared helper (src/src/core/utils.py) -/

/-- `clamp` (utils line 157): `max(min_val, min(value, max_val))`. -/
def clamp (value min_val max_val : ℚ) : ℚ :=
  max min_val (min value max_val)

/-- `lerp` (utils lines 170-183): clamps `t` into `[0,1]` first. -/
def lerp (start stop t : ℚ) : ℚ :=
  start + (stop - start) * clamp t 0 1

/-! ### Momentum System (src/src/systems/momentum_system.py) -/

/-- Class constants of `MomentumSystem` (lines 40-44). -/
def MAX_MOMENTUM : ℚ := 10

/-- `MomentumSystem.BUILD_RATE`. -/
def BUILD_RATE : ℚ := 1

/-- `MomentumSystem.DRAIN_RATE`. -/
def DRAIN_RATE : ℚ := 2

/-- `MomentumSystem.DEBT_REDUCTION_PER_POINT` (0.05). -/
def DEBT_REDUCTION_PER_POINT : ℚ := 1/20

/-- `MomentumSystem.MAX_DEBT_REDUCTION` (0.50). -/
def MAX_DEBT_REDUCTION : ℚ := 1/2

/-- `MomentumSystem.__init__` state (lines 62-75). -/
structure MomentumSystem where
  momentum : ℚ
  is_frozen : Bool
  last_milestone : ℕ
  peak_momentum : ℚ
  total_momentum_earned : ℚ
  times_max_reached : ℕ
  display_momentum : ℚ
  glow_intensity : ℚ
  pulse_timer : ℚ
deriving Repr, DecidableEq

/-- A freshly constructed `MomentumSystem`. -/
def MomentumSystem.init : MomentumSystem :=
  { momentum := 0
    is_frozen := false
    last_milestone := 0
    peak_momentum := 0
    total_momentum_earned := 0
    times_max_reached := 0
    display_momentum := 0
    glow_intensity := 0
    pulse_timer := 0 }

/-- `MomentumSystem.debt_reduction_multiplier` (lines 103-115). -/
def debt_reduction_multiplier (s : MomentumSystem) : ℚ :=
  1 - min (s.momentum * DEBT_REDUCTION_PER_POINT) MAX_DEBT_REDUCTION

/-- `MomentumSystem._check_milestones` (lines 158-167): `MILESTONES` iterates
its keys in insertion order 3, 6, 10, so `current_milestone` is the largest
threshold not exceeding the momentum. -/
def check_milestones (s : MomentumSystem) : MomentumSystem :=
  let current_milestone : ℕ :=
    if s.momentum ≥ 10 then 10
    else if s.momentum ≥ 6 then 6
    else if s.momentum ≥ 3 then 3
    else 0
  if current_milestone > s.last_milestone then
    { s with last_milestone := current_milestone }
  else s

/-- The drain/build statement of `MomentumSystem.update` (lines 126-131). -/
def apply_drain_build (dt : ℚ) (s : MomentumSystem) : MomentumSystem :=
  if s.is_frozen then { s with momentum := max 0 (s.momentum - DRAIN_RATE * dt) }
  else { s with momentum := min MAX_MOMENTUM (s.momentum + BUILD_RATE * dt) }

/-- The peak-statistic statement of `MomentumSystem.update` (lines 134-135). -/
def track_peak (s : MomentumSystem) : MomentumSystem :=
  if s.momentum > s.peak_momentum then { s with peak_momentum := s.momentum }
  else s

/-- The earned-total statement of `MomentumSystem.update` (lines 137-138). -/
def track_earned (old_momentum : ℚ) (s : MomentumSystem) : MomentumSystem :=
  if old_momentum < s.momentum then
    { s with total_momentum_earned :=
        s.total_momentum_earned + (s.momentum - old_momentum) }
  else s

/-- The max-momentum achievement statement of `MomentumSystem.update`
(lines 141-145). -/
def track_max_reached (old_momentum : ℚ) (s : MomentumSystem) : MomentumSystem :=
  if s.momentum ≥ MAX_MOMENTUM ∧ old_momentum < MAX_MOMENTUM then
    { s with times_max_reached := s.times_max_reached + 1 }
  else s

/-- The visual-smoothing statements of `MomentumSystem.update` (lines
150-156); the three written fields do not read each other. -/
def update_visuals (dt : ℚ) (s : MomentumSystem) : MomentumSystem :=
  { s with display_momentum := lerp s.display_momentum s.momentum (dt * 8)
           pulse_timer := s.pulse_timer + dt * 3
           glow_intensity := lerp s.glow_intensity (s.momentum / MAX_MOMENTUM) (dt * 4) }

/-- `MomentumSystem.update` (lines 117-156), as the statement sequence. -/
def MomentumSystem.update (dt : ℚ) (s : MomentumSystem) : MomentumSystem :=
  update_visuals dt
    (check_milestones
      (track_max_reached s.momentum
        (track_earned s.momentum
          (track_peak
            (apply_drain_build dt s)))))

/-- `MomentumSystem._on_time_frozen` (lines 85-87), the `TIME_FROZEN`
event-bus handler. -/
def on_time_frozen (s : MomentumSystem) : MomentumSystem :=
  { s with is_frozen := true }

/-- `MomentumSystem._on_time_unfrozen` (lines 89-91), the `TIME_UNFROZEN`
event-bus handler. -/
def on_time_unfrozen (s : MomentumSystem) : MomentumSystem :=
  { s with is_frozen := false }

/-- One step of the MomentumSystem interface: an `update(dt)` call or one of
the two freeze-event handlers. -/
inductive MomentumOp where
  | step (dt : ℚ)
  | freezeEvt
  | unfreezeEvt
deriving Repr, DecidableEq

/-- Apply one `MomentumOp`. -/
def applyMomentumOp (o : MomentumOp) (s : MomentumSystem) : MomentumSystem :=
  match o with
  | .step dt => s.update dt
  | .freezeEvt => on_time_frozen s
  | .unfreezeEvt => on_time_unfrozen s

/-- Run a sequence of `MomentumOp`s from a state. -/
def runMomentum (ops : List MomentumOp) (s : MomentumSystem) : MomentumSystem :=
  ops.foldl (fun a o => applyMomentumOp o a) s

/-! ### Resonance System (src/assets/src/systems/resonance_system.py)

The system references a `TimeEngine` only through `is_frozen()` and a
`DebtManager` through `accrue_debt`/`absorb_debt`; the frozen flag and the
`player_moving` argument are live-sampled at each `update`, so they are
parameters of the step, and the debt manager state is carried in the record.
The particle list (purely visual, fed by `random`) is omitted, and the
freshly randomized `_next_wave_time` drawn by `_reset_cycle` is passed in as
a parameter standing for `random.uniform(15, 20)`. -/

/-- `ResonancePhase` (lines 29-34). -/
inductive ResonancePhase where
  | CALM
  | WARNING
  | ACTIVE
  | AFTERMATH
deriving Repr, DecidableEq

/-- Class constants of `ResonanceSystem` (lines 52-59). -/
def MIN_WAVE_INTERVAL : ℚ := 15

/-- `ResonanceSystem.MAX_WAVE_INTERVAL`. -/
def MAX_WAVE_INTERVAL : ℚ := 20

/-- `ResonanceSystem.WARNING_DURATION`. -/
def WARNING_DURATION : ℚ := 2

/-- `ResonanceSystem.WAVE_DURATION` (1.5). -/
def WAVE_DURATION : ℚ := 3/2

/-- `ResonanceSystem.AFTERMATH_DURATION`. -/
def AFTERMATH_DURATION : ℚ := 1

/-- `ResonanceSystem.FROZEN_PENALTY`. -/
def FROZEN_PENALTY : ℚ := 3

/-- `ResonanceSystem.MOVING_BONUS` (0.5). -/
def MOVING_BONUS : ℚ := 1/2

/-- `ResonanceSystem.__init__` state (lines 68-90) with the attached debt
manager. -/
structure ResonanceSystem where
  phase : ResonancePhase
  timer : ℚ
  next_wave_time : ℚ
  wave_position : ℚ
  visual_intensity : ℚ
  waves_survived : ℕ
  waves_penalized : ℕ
  total_bonus_earned : ℚ
  enabled : Bool
  debt : DebtState
deriving Repr, DecidableEq

/-- `ResonanceSystem._update_wave_effects` (lines 198-217), with system
references set.  `frozen` is `self._time_engine.is_frozen()` sampled live. -/
def update_wave_effects (frozen player_moving : Bool) (s : ResonanceSystem) :
    ResonanceSystem :=
  if frozen then
    if s.timer < 1/10 then
      { s with debt := accrue_debt FROZEN_PENALTY s.debt
               waves_penalized := s.waves_penalized + 1 }
    else s
  else if player_moving then
    let bonus_per_frame := MOVING_BONUS / WAVE_DURATION * (16/1000)
    let r := absorb_debt bonus_per_frame s.debt
    { s with debt := r.2, total_bonus_earned := s.total_bonus_earned + r.1 }
  else s

/-- `ResonanceSystem._start_warning` (lines 181-190). -/
def start_warning (s : ResonanceSystem) : ResonanceSystem :=
  { s with phase := .WARNING, timer := 0, visual_intensity := 0 }

/-- `ResonanceSystem._start_wave` (lines 192-196). -/
def start_wave (s : ResonanceSystem) : ResonanceSystem :=
  { s with phase := .ACTIVE, timer := 0, wave_position := 0 }

/-- `ResonanceSystem._end_wave` (lines 219-223). -/
def end_wave (s : ResonanceSystem) : ResonanceSystem :=
  { s with phase := .AFTERMATH, timer := 0, waves_survived := s.waves_survived + 1 }

/-- `ResonanceSystem._reset_cycle` (lines 225-231); `fresh_interval` stands
for the `random.uniform(15, 20)` redraw of `_calculate_next_wave_time`. -/
def reset_cycle (fresh_interval : ℚ) (s : ResonanceSystem) : ResonanceSystem :=
  { s with phase := .CALM, timer := 0, next_wave_time := fresh_interval
           visual_intensity := 0, wave_position := 0 }

/-- `ResonanceSystem.update` (lines 139-179).  The `elif` chain dispatches on
the phase as of entry (after the `timer += dt`); particle updates are
render-only and omitted. -/
def ResonanceSystem.update (dt : ℚ) (frozen player_moving : Bool)
    (fresh_interval : ℚ) (s : ResonanceSystem) : ResonanceSystem :=
  if !s.enabled then s
  else
    let s := { s with timer := s.timer + dt }
    match s.phase with
    | .CALM =>
      if s.timer ≥ s.next_wave_time then start_warning s else s
    | .WARNING =>
      let s := { s with visual_intensity := lerp s.visual_intensity 1 (dt * 3) }
      if s.timer ≥ WARNING_DURATION then start_wave s else s
    | .ACTIVE =>
      let s := { s with wave_position := s.timer / WAVE_DURATION }
      let s := update_wave_effects frozen player_moving s
      if s.timer ≥ WAVE_DURATION then end_wave s else s
    | .AFTERMATH =>
      let s := { s with visual_intensity := lerp s.visual_intensity 0 (dt * 2) }
      if s.timer ≥ AFTERMATH_DURATION then reset_cycle fresh_interval s else s

/-! ### Time Reversal System (src/assets/src/systems/time_reversal_system.py) -/

/-- `GameStateSnapshot` (lines 29-42); the `entity_states` map is opaque data
restored by the caller and is modelled as a list of labelled rational
tuples. -/
structure GameStateSnapshot where
  timestamp : ℚ
  player_position : ℚ × ℚ
  player_velocity : ℚ × ℚ
  entity_states : List (ℕ × (ℚ × ℚ) × (ℚ × ℚ) × Bool)
  debt_amount : ℚ
  debt_tier : ℕ
deriving Repr, DecidableEq

/-- Class constants of `TimeReversalSystem` (lines 58-65). -/
def RECORDING_DURATION : ℚ := 5

/-- `TimeReversalSystem.RECORDING_INTERVAL` (0.1). -/
def RECORDING_INTERVAL : ℚ := 1/10

/-- `TimeReversalSystem.REWIND_DURATION`. -/
def REWIND_DURATION : ℚ := 3

/-- `TimeReversalSystem.DEBT_COST`. -/
def DEBT_COST : ℚ := 8

/-- `TimeReversalSystem.USES_PER_LIFE`. -/
def USES_PER_LIFE : ℤ := 1

/-- `TimeReversalSystem.MAX_SNAPSHOTS` = `int(5.0 / 0.1)` = 50. -/
def MAX_SNAPSHOTS : ℕ := 50

/-- `TimeReversalSystem.__init__` state (lines 74-95); the snapshot deque is
a list ordered oldest first, the visual alpha and particles are render-only
and omitted. -/
structure TimeReversalSystem where
  snapshots : List GameStateSnapshot
  record_timer : ℚ
  recording_time : ℚ
  uses_remaining : ℤ
  total_uses : ℕ
  is_rewinding : Bool
  rewind_timer : ℚ
  target_snapshot : Option GameStateSnapshot
deriving Repr, DecidableEq

/-- A freshly constructed `TimeReversalSystem`. -/
def TimeReversalSystem.init : TimeReversalSystem :=
  { snapshots := []
    record_timer := 0
    recording_time := 0
    uses_remaining := USES_PER_LIFE
    total_uses := 0
    is_rewinding := false
    rewind_timer := 0
    target_snapshot := none }

/-- `TimeReversalSystem.can_rewind` (lines 101-106). -/
def can_rewind (s : TimeReversalSystem) : Bool :=
  decide (0 < s.uses_remaining) && decide (10 ≤ s.snapshots.length) && !s.is_rewinding

/-- The target-selection loop of `initiate_rewind` (lines 175-179): scan
oldest-to-newest keeping the last snapshot whose timestamp is at most
`target`, breaking at the first snapshot past it (`acc` is the loop's
`target_snapshot` local). -/
def pick_target (target : ℚ) :
    List GameStateSnapshot → Option GameStateSnapshot → Option GameStateSnapshot
  | [], acc => acc
  | snap :: rest, acc =>
    if snap.timestamp ≤ target then pick_target target rest (some snap) else acc

/-- `TimeReversalSystem.initiate_rewind` (lines 161-209), with the attached
debt manager state threaded through; returns the Python return value with
the new reversal and debt states. -/
def initiate_rewind (s : TimeReversalSystem) (d : DebtState) :
    Option GameStateSnapshot × TimeReversalSystem × DebtState :=
  if !can_rewind s then (none, s, d)
  else
    let target_time := s.recording_time - REWIND_DURATION
    let tgt :=
      match pick_target target_time s.snapshots none with
      | some t => some t
      | none => s.snapshots.head?
    match tgt with
    | none => (none, s, d)
    | some snap =>
      (some snap,
       { s with is_rewinding := true
                rewind_timer := 0
                target_snapshot := some snap
                uses_remaining := s.uses_remaining - 1
                total_uses := s.total_uses + 1 },
       accrue_debt DEBT_COST d)

/-! ### Concrete scenario states used by the claims -/

/-- The C3 freeze phase delivered as a single `update(4.0)` after `freeze()`
on a freshly wired engine. -/
def c3_freeze_phase : TimeEngine :=
  TimeEngine.update 4 (TimeEngine.freeze TimeEngine.init)

/-- The C3 flow phase: `unfreeze()` then the given flowing `update` calls. -/
def c3_flow_phase (ds : List ℚ) : TimeEngine :=
  ds.foldl (fun e dt => TimeEngine.update dt e) (TimeEngine.unfreeze c3_freeze_phase)

/-- A reachable state late in the Warning phase (timer 1.875 of the 2.0
warning seconds), wired to a fresh debt manager, used for the C5 trace. -/
def c5_warning_state : ResonanceSystem :=
  { phase := .WARNING
    timer := 15/8
    next_wave_time := 16
    wave_position := 0
    visual_intensity := 0
    waves_survived := 0
    waves_penalized := 0
    total_bonus_earned := 0
    enabled := true
    debt := DebtState.init }

/-- The `update(0.125)` that rolls the warning timer to 2.0 and enters the
Active phase (no wave effects run on the entering frame). -/
def c5_entered : ResonanceSystem :=
  ResonanceSystem.update (1/8) true false 16 c5_warning_state

/-- First Active-phase frame, `dt = 0.03125`, world frozen. -/
def c5_frame1 : ResonanceSystem :=
  ResonanceSystem.update (1/32) true false 16 c5_entered

/-- Second Active-phase frame of the same wave, `dt = 0.03125`, still frozen. -/
def c5_frame2 : ResonanceSystem :=
  ResonanceSystem.update (1/32) true false 16 c5_frame1

/-- A fully occupied anchor board: remaining times 5, 2 and 9 seconds. -/
def c6_sys : AnchorSystem :=
  { anchors := [some ⟨(0, 0), 0, 5, 0⟩, some ⟨(1, 1), 0, 2, 1⟩, some ⟨(2, 2), 0, 9, 2⟩] }

/-- A snapshot with the given timestamp and trivial payload. -/
def snap_at (t : ℚ) : GameStateSnapshot :=
  { timestamp := t
    player_position := (0, 0)
    player_velocity := (0, 0)
    entity_states := []
    debt_amount := 0
    debt_tier := 0 }

/-- A reversal state with ten time-ordered snapshots (timestamps 1..10) and
ten seconds of recording, one use left, not rewinding. -/
def c7_sys : TimeReversalSystem :=
  { snapshots := [snap_at 1, snap_at 2, snap_at 3, snap_at 4, snap_at 5,
                  snap_at 6, snap_at 7, snap_at 8, snap_at 9, snap_at 10]
    record_timer := 0
    recording_time := 10
    uses_remaining := 1
    total_uses := 0
    is_rewinding := false
    rewind_timer := 0
    target_snapshot := none }

/-- A bankrupt debt manager whose debt has been drained to exactly 0 (as
`absorb_debt` can do, since it never touches `_is_bankrupt`). -/
def c10_state : DebtState :=
  { DebtState.init with is_bankrupt := true }

/-! ### Helper lemmas -/

/-- `_update_tier` never touches the debt scalar. -/
theorem update_tier_current_debt (s : DebtState) :
    (update_tier s).current_debt = s.current_debt := by
  simp only [update_tier]
  split_ifs <;> rfl

/-- `_update_tier` never touches the bankruptcy flag. -/
theorem update_tier_is_bankrupt (s : DebtState) :
    (update_tier s).is_bankrupt = s.is_bankrupt := by
  simp only [update_tier]
  split_ifs <;> rfl

/-- `_update_tier` never touches the bankruptcy timer. -/
theorem update_tier_bankruptcy_timer (s : DebtState) :
    (update_tier s).bankruptcy_timer = s.bankruptcy_timer := by
  simp only [update_tier]
  split_ifs <;> rfl

/-- When the cached `_previous_tier` agrees with `_current_tier` (as in every
reachable state), `_update_tier` commits the recomputed tier, and the cache
again agrees afterwards. -/
theorem update_tier_spec (s : DebtState) (hs : s.previous_tier = s.current_tier) :
    (update_tier s).current_tier = new_tier_of s.current_debt ∧
    (update_tier s).previous_tier = new_tier_of s.current_debt := by
  simp only [update_tier]
  split_ifs with h
  · exact ⟨rfl, rfl⟩
  · simp only [ne_eq, not_not] at h
    exact ⟨by rw [← hs]; exact h.symm, h.symm⟩

/-- Case analysis of the tier table: for nonnegative debt the six bands are
exhaustive and give the six tier values. -/
theorem new_tier_cases (d : ℚ) (hd : 0 ≤ d) :
    (d = 0 ∧ new_tier_of d = 0) ∨
    (0 < d ∧ d ≤ 3 ∧ new_tier_of d = 1) ∨
    (3 < d ∧ d ≤ 6 ∧ new_tier_of d = 2) ∨
    (6 < d ∧ d ≤ 10 ∧ new_tier_of d = 3) ∨
    (10 < d ∧ d ≤ 15 ∧ new_tier_of d = 4) ∨
    (15 < d ∧ new_tier_of d = 5) := by
  unfold new_tier_of
  split_ifs with h1 h2 h3 h4 h5
  · exact Or.inl ⟨h1, rfl⟩
  · exact Or.inr (Or.inl ⟨lt_of_le_of_ne hd (Ne.symm h1), h2, rfl⟩)
  · exact Or.inr (Or.inr (Or.inl ⟨not_le.mp h2, h3, rfl⟩))
  · exact Or.inr (Or.inr (Or.inr (Or.inl ⟨not_le.mp h3, h4, rfl⟩)))
  · exact Or.inr (Or.inr (Or.inr (Or.inr (Or.inl ⟨not_le.mp h4, h5, rfl⟩))))
  · exact Or.inr (Or.inr (Or.inr (Or.inr (Or.inr ⟨not_le.mp h5, rfl⟩))))

/-- The tier table is monotone in the debt. -/
theorem new_tier_of_mono (d e : ℚ) (hd : 0 ≤ d) (hde : d ≤ e) :
    new_tier_of d ≤ new_tier_of e := by
  have he : 0 ≤ e := hd.trans hde
  rcases new_tier_cases d hd with ⟨ha, h⟩ | ⟨ha, hb, h⟩ | ⟨ha, hb, h⟩ |
      ⟨ha, hb, h⟩ | ⟨ha, hb, h⟩ | ⟨ha, h⟩ <;>
    rcases new_tier_cases e he with ⟨ga, g⟩ | ⟨ga, gb, g⟩ | ⟨ga, gb, g⟩ |
      ⟨ga, gb, g⟩ | ⟨ga, gb, g⟩ | ⟨ga, g⟩ <;>
    rw [h, g] <;>
    first
      | omega
      | (exfalso; linarith)

/-- `repay_debt` on a non-bankrupt state with positive debt and an agreeing
tier cache: the debt is clamped at 0, the tier is recomputed, the cache
agrees again, and bankruptcy stays off. -/
theorem repay_debt_nonbankrupt (dt : ℚ) (s : DebtState)
    (hpos : 0 < s.current_debt) (hb : s.is_bankrupt = false)
    (hp : s.previous_tier = s.current_tier) :
    (repay_debt dt s).current_debt = max 0 (s.current_debt - dt) ∧
    (repay_debt dt s).current_tier = new_tier_of (max 0 (s.current_debt - dt)) ∧
    (repay_debt dt s).previous_tier = (repay_debt dt s).current_tier ∧
    (repay_debt dt s).is_bankrupt = false := by
  have hng : ¬ s.current_debt ≤ 0 := not_le.mpr hpos
  have hrw : repay_debt dt s = update_tier
      { s with current_debt := max 0 (s.current_debt - dt)
               total_debt_repaid := s.total_debt_repaid + dt } := by
    simp only [repay_debt, hng, if_false, hb, Bool.false_eq_true]
  set s1 : DebtState :=
    { s with current_debt := max 0 (s.current_debt - dt)
             total_debt_repaid := s.total_debt_repaid + dt } with hs1
  rw [hrw]
  have hp1 : s1.previous_tier = s1.current_tier := hp
  have h1 := update_tier_spec s1 hp1
  refine ⟨?_, h1.1, ?_, ?_⟩
  · rw [update_tier_current_debt]
  · rw [h1.1, h1.2]
  · rw [update_tier_is_bankrupt]
    exact hb

/-- One `TimeEngine.update` while flowing: stays flowing, and the debt
manager is stepped by `repay_debt` exactly when the debt is positive. -/
theorem engine_flow_step (dt : ℚ) (e : TimeEngine) (hfr : e.frozen = false) :
    (TimeEngine.update dt e).frozen = false ∧
    (TimeEngine.update dt e).debt =
      (if 0 < e.debt.current_debt then repay_debt dt e.debt else e.debt) := by
  simp only [TimeEngine.update, hfr, Bool.false_eq_true, if_false,
    TimeEngine.update_time_scale, gt_iff_lt]
  split_ifs with h <;> exact ⟨rfl, rfl⟩

/-- Folding flowing `update` calls with nonnegative `dt`s over an engine
whose debt is `max 0 D`, tier cache agreeing and not bankrupt: the final
debt is `max 0 (D - Σ dt)` with the tier recomputed accordingly. -/
theorem engine_flow_fold (ds : List ℚ) :
    ∀ (e : TimeEngine) (D : ℚ), (∀ x ∈ ds, 0 ≤ x) →
    e.frozen = false →
    e.debt.current_debt = max 0 D →
    e.debt.current_tier = new_tier_of e.debt.current_debt →
    e.debt.previous_tier = e.debt.current_tier →
    e.debt.is_bankrupt = false →
    (ds.foldl (fun a dt => TimeEngine.update dt a) e).frozen = false ∧
    (ds.foldl (fun a dt => TimeEngine.update dt a) e).debt.current_debt = max 0 (D - ds.sum) ∧
    (ds.foldl (fun a dt => TimeEngine.update dt a) e).debt.current_tier =
      new_tier_of (max 0 (D - ds.sum)) ∧
    (ds.foldl (fun a dt => TimeEngine.update dt a) e).debt.previous_tier =
      (ds.foldl (fun a dt => TimeEngine.update dt a) e).debt.current_tier ∧
    (ds.foldl (fun a dt => TimeEngine.update dt a) e).debt.is_bankrupt = false := by
  induction ds with
  | nil =>
    intro e D _ hfr hd ht hp hb
    simp only [List.foldl_nil, List.sum_nil, sub_zero]
    exact ⟨hfr, by rw [hd], by rw [← hd, ht], hp, hb⟩
  | cons dt rest ih =>
    intro e D hds hfr hd ht hp hb
    have hdt : 0 ≤ dt := hds dt (List.mem_cons_self dt rest)
    have hrest : ∀ x ∈ rest, 0 ≤ x := fun x hx => hds x (List.mem_cons_of_mem dt hx)
    simp only [List.foldl_cons, List.sum_cons]
    have hstep := engine_flow_step dt e hfr
    by_cases hcase : 0 < e.debt.current_debt
    · have hrep := repay_debt_nonbankrupt dt e.debt hcase hb hp
      have hDpos : 0 < D := by
        by_contra hD
        push_neg at hD
        rw [hd, max_eq_left hD] at hcase
        exact lt_irrefl 0 hcase
      have hmax : max 0 D = D := max_eq_right hDpos.le
      have hnewd : (TimeEngine.update dt e).debt.current_debt = max 0 (D - dt) := by
        rw [hstep.2, if_pos hcase, hrep.1, hd, hmax]
      have hnewt : (TimeEngine.update dt e).debt.current_tier =
          new_tier_of (TimeEngine.update dt e).debt.current_debt := by
        rw [hstep.2, if_pos hcase, hrep.2.1, hrep.1]
      have hnewp : (TimeEngine.update dt e).debt.previous_tier =
          (TimeEngine.update dt e).debt.current_tier := by
        rw [hstep.2, if_pos hcase]
        exact hrep.2.2.1
      have hnewb : (TimeEngine.update dt e).debt.is_bankrupt = false := by
        rw [hstep.2, if_pos hcase]
        exact hrep.2.2.2
      have final := ih (TimeEngine.update dt e) (D - dt) hrest hstep.1 hnewd hnewt hnewp hnewb
      rw [sub_sub] at final
      exact final
    · push_neg at hcase
      have hD0 : D ≤ 0 := by
        by_contra hD
        push_neg at hD
        rw [hd, max_eq_right hD.le] at hcase
        exact absurd hcase (not_le.mpr hD)
      have hnew : (TimeEngine.update dt e).debt = e.debt := by
        rw [hstep.2, if_neg (not_lt.mpr hcase)]
      have hnewd : (TimeEngine.update dt e).debt.current_debt = max 0 (D - dt) := by
        rw [hnew, hd, max_eq_left hD0, max_eq_left (by linarith)]
      have hnewt : (TimeEngine.update dt e).debt.current_tier =
          new_tier_of (TimeEngine.update dt e).debt.current_debt := by
        rw [hnew]
        exact ht
      have hnewp : (TimeEngine.update dt e).debt.previous_tier =
          (TimeEngine.update dt e).debt.current_tier := by
        rw [hnew]
        exact hp
      have hnewb : (TimeEngine.update dt e).debt.is_bankrupt = false := by
        rw [hnew]
        exact hb
      have final := ih (TimeEngine.update dt e) (D - dt) hrest hstep.1 hnewd hnewt hnewp hnewb
      rw [sub_sub] at final
      exact final

/-- With a time-ordered snapshot list containing some snapshot in the window,
the selection loop returns the latest in-window snapshot (whatever the
accumulator held). -/
theorem pick_target_found (t : ℚ) :
    ∀ (l : List GameStateSnapshot),
      l.Pairwise (fun a b => a.timestamp ≤ b.timestamp) →
      (∃ x ∈ l, x.timestamp ≤ t) →
      ∀ acc, ∃ m, pick_target t l acc = some m ∧ m ∈ l ∧ m.timestamp ≤ t ∧
        ∀ y ∈ l, y.timestamp ≤ t → y.timestamp ≤ m.timestamp := by
  intro l
  induction l with
  | nil =>
    intro _ hex
    exact absurd hex (by simp)
  | cons a rest ih =>
    intro hs hex acc
    have ha : a.timestamp ≤ t := by
      obtain ⟨x, hx, hxt⟩ := hex
      rcases List.mem_cons.mp hx with rfl | hx2
      · exact hxt
      · exact le_trans (List.rel_of_pairwise_cons hs hx2) hxt
    have hsr : rest.Pairwise (fun a b => a.timestamp ≤ b.timestamp) := hs.of_cons
    by_cases hrest : ∃ x ∈ rest, x.timestamp ≤ t
    · obtain ⟨m, hm1, hm2, hm3, hm4⟩ := ih hsr hrest (some a)
      refine ⟨m, by simp [pick_target, ha, hm1], List.mem_cons_of_mem a hm2, hm3, ?_⟩
      intro y hy hyt
      rcases List.mem_cons.mp hy with rfl | hy2
      · exact List.rel_of_pairwise_cons hs hm2
      · exact hm4 y hy2 hyt
    · have hstays : pick_target t rest (some a) = some a := by
        cases rest with
        | nil => rfl
        | cons b rest2 =>
          have hb : ¬ b.timestamp ≤ t := fun hbt =>
            hrest ⟨b, List.mem_cons_self b rest2, hbt⟩
          simp [pick_target, hb]
      refine ⟨a, by simp [pick_target, ha, hstays], List.mem_cons_self a rest, ha, ?_⟩
      intro y hy hyt
      rcases List.mem_cons.mp hy with rfl | hy2
      · exact le_refl _
      · exact absurd ⟨y, hy2, hyt⟩ hrest

/-- With no snapshot in the window the selection loop returns its
accumulator untouched (the very first comparison breaks). -/
theorem pick_target_none_of (t : ℚ) (l : List GameStateSnapshot)
    (hnone : ∀ x ∈ l, ¬ x.timestamp ≤ t) (acc : Option GameStateSnapshot) :
    pick_target t l acc = acc := by
  cases l with
  | nil => rfl
  | cons a rest => simp [pick_target, hnone a (List.mem_cons_self a rest)]

/-- `_check_milestones` does not change the momentum value. -/
theorem check_milestones_momentum (s : MomentumSystem) :
    (check_milestones s).momentum = s.momentum := by
  simp only [check_milestones]
  split_ifs <;> rfl

/-- The peak statistic does not change the momentum value. -/
theorem track_peak_momentum (s : MomentumSystem) :
    (track_peak s).momentum = s.momentum := by
  unfold track_peak
  split_ifs <;> rfl

/-- The earned total does not change the momentum value. -/
theorem track_earned_momentum (old_momentum : ℚ) (s : MomentumSystem) :
    (track_earned old_momentum s).momentum = s.momentum := by
  unfold track_earned
  split_ifs <;> rfl

/-- The achievement counter does not change the momentum value. -/
theorem track_max_momentum (old_momentum : ℚ) (s : MomentumSystem) :
    (track_max_reached old_momentum s).momentum = s.momentum := by
  unfold track_max_reached
  split_ifs <;> rfl

/-- The momentum value after one `update` is exactly the drain/build clamp;
the statistics and visual fields do not feed back into it. -/
theorem momentum_update_value (dt : ℚ) (s : MomentumSystem) :
    (MomentumSystem.update dt s).momentum =
      if s.is_frozen then max 0 (s.momentum - DRAIN_RATE * dt)
      else min MAX_MOMENTUM (s.momentum + BUILD_RATE * dt) := by
  show (update_visuals dt _).momentum = _
  have hv : ∀ x : MomentumSystem, (update_visuals dt x).momentum = x.momentum :=
    fun x => rfl
  rw [hv, check_milestones_momentum, track_max_momentum, track_earned_momentum,
    track_peak_momentum]
  unfold apply_drain_build
  split_ifs <;> rfl

/-- Bound preservation for a whole `MomentumOp` run. -/
theorem runMomentum_bounds (ops : List MomentumOp) :
    ∀ s : MomentumSystem, (∀ o ∈ ops, ∀ dt : ℚ, o = .step dt → 0 ≤ dt) →
      0 ≤ s.momentum → s.momentum ≤ MAX_MOMENTUM →
      0 ≤ (runMomentum ops s).momentum ∧
      (runMomentum ops s).momentum ≤ MAX_MOMENTUM := by
  induction ops with
  | nil =>
    intro s _ h0 h1
    exact ⟨h0, h1⟩
  | cons o rest ih =>
    intro s hops h0 h1
    have hrest : ∀ o2 ∈ rest, ∀ dt : ℚ, o2 = .step dt → 0 ≤ dt :=
      fun o2 ho2 dt hdt => hops o2 (List.mem_cons_of_mem o ho2) dt hdt
    have hstep : 0 ≤ (applyMomentumOp o s).momentum ∧
        (applyMomentumOp o s).momentum ≤ MAX_MOMENTUM := by
      cases o with
      | step dt =>
        have hdt : 0 ≤ dt := hops _ (List.mem_cons_self _ _) dt rfl
        have hv := momentum_update_value dt s
        unfold applyMomentumOp
        rw [hv]
        unfold MAX_MOMENTUM at h1 ⊢
        unfold DRAIN_RATE BUILD_RATE
        split_ifs
        · constructor
          · exact le_max_left 0 _
          · rw [max_le_iff]
            constructor <;> linarith
        · constructor
          · rw [le_min_iff]
            constructor <;> linarith
          · exact min_le_left _ _
      | freezeEvt => exact ⟨h0, h1⟩
      | unfreezeEvt => exact ⟨h0, h1⟩
    have := ih (applyMomentumOp o s) hrest hstep.1 hstep.2
    simpa [runMomentum, List.foldl_cons] using this

/-- The derived multiplier lies in `[1/2, 1]` whenever momentum is
nonnegative. -/
theorem multiplier_bounds (s : MomentumSystem) (h : 0 ≤ s.momentum) :
    1/2 ≤ debt_reduction_multiplier s ∧ debt_reduction_multiplier s ≤ 1 := by
  unfold debt_reduction_multiplier DEBT_REDUCTION_PER_POINT MAX_DEBT_REDUCTION
  constructor
  · linarith [min_le_right (s.momentum * (1/20)) (1/2 : ℚ)]
  · have : (0 : ℚ) ≤ min (s.momentum * (1/20)) (1/2) := by
      rw [le_min_iff]
      constructor <;> linarith
    linarith

/-! ### Claim theorems -/

/-- C1: the tier computed by `_update_tier` is a pure function of the debt
(the cached `_previous_tier` agreeing with `_current_tier`, as in every
reachable state), with closed-upper-bound thresholds: tier 0 iff `d = 0`,
tier 1 iff `0 < d ≤ 3`, tier 2 iff `3 < d ≤ 6`, tier 3 iff `6 < d ≤ 10`,
tier 4 iff `10 < d ≤ 15`, tier 5 iff `d > 15`; the tier is non-decreasing in
the debt, and `d = 3.0` gives tier 1 while `d = 3.0001` gives tier 2. -/
theorem C1_tier_pure_thresholds :
    (∀ s : DebtState, s.previous_tier = s.current_tier →
      (update_tier s).current_tier = new_tier_of s.current_debt) ∧
    (∀ d : ℚ, 0 ≤ d →
      (new_tier_of d = 0 ↔ d = 0) ∧
      (new_tier_of d = 1 ↔ 0 < d ∧ d ≤ 3) ∧
      (new_tier_of d = 2 ↔ 3 < d ∧ d ≤ 6) ∧
      (new_tier_of d = 3 ↔ 6 < d ∧ d ≤ 10) ∧
      (new_tier_of d = 4 ↔ 10 < d ∧ d ≤ 15) ∧
      (new_tier_of d = 5 ↔ 15 < d)) ∧
    (∀ d e : ℚ, 0 ≤ d → d ≤ e → new_tier_of d ≤ new_tier_of e) ∧
    new_tier_of 3 = 1 ∧ new_tier_of (30001/10000) = 2 := by
  refine ⟨fun s hs => (update_tier_spec s hs).1, fun d hd => ?_,
    new_tier_of_mono, by norm_num [new_tier_of], by norm_num [new_tier_of]⟩
  rcases new_tier_cases d hd with ⟨ha, h⟩ | ⟨ha, hb, h⟩ | ⟨ha, hb, h⟩ |
      ⟨ha, hb, h⟩ | ⟨ha, hb, h⟩ | ⟨ha, h⟩ <;>
    rw [h] <;>
    refine ⟨⟨fun hx => ?_, fun hx => ?_⟩, ⟨fun hx => ?_, fun hx => ?_⟩,
      ⟨fun hx => ?_, fun hx => ?_⟩, ⟨fun hx => ?_, fun hx => ?_⟩,
      ⟨fun hx => ?_, fun hx => ?_⟩, ⟨fun hx => ?_, fun hx => ?_⟩⟩ <;>
    first
      | exact ha
      | exact ⟨ha, hb⟩
      | exact absurd hx (by decide)
      | rfl
      | (exfalso; rcases hx with ⟨hx1, hx2⟩; linarith)
      | (exfalso; linarith [hx])

/-- C1 witness: the theorem instantiated at the fresh debt state and at the
concrete debts 2 and 7. -/
theorem C1_tier_pure_thresholds_witness :
    (update_tier DebtState.init).current_tier = new_tier_of DebtState.init.current_debt ∧
    (new_tier_of 2 = 1 ↔ (0 : ℚ) < 2 ∧ (2 : ℚ) ≤ 3) ∧
    new_tier_of 2 ≤ new_tier_of 7 :=
  ⟨C1_tier_pure_thresholds.1 DebtState.init rfl,
   (C1_tier_pure_thresholds.2.1 2 (by norm_num)).2.1,
   C1_tier_pure_thresholds.2.2.1 2 7 (by norm_num) (by norm_num)⟩

/-- C2 (evaluation at the failing input): `accrue_debt` does ignore
non-positive amounts, but `absorb_debt(-5)` on a fresh manager (debt 0)
computes `min(-5, 0) = -5` and subtracts it, RAISING the debt to 5 (and the
tier to 2) — the claimed no-op guard is absent from `absorb_debt`. -/
theorem C2_absorb_negative_eval :
    (∀ a : ℚ, ∀ s : DebtState, a ≤ 0 → accrue_debt a s = s) ∧
    (absorb_debt (-5) DebtState.init).2.current_debt = 5 ∧
    (absorb_debt (-5) DebtState.init).2.current_tier = 2 := by
  refine ⟨fun a s ha => ?_,
    by norm_num [absorb_debt, DebtState.init, update_tier, new_tier_of, min_def],
    by norm_num [absorb_debt, DebtState.init, update_tier, new_tier_of, min_def]⟩
  unfold accrue_debt
  simp [ha]

/-- C2 witness: the `accrue_debt` no-op conjunct applied at amount `-5` on
the fresh state. -/
theorem C2_absorb_negative_eval_witness :
    accrue_debt (-5) DebtState.init = DebtState.init :=
  C2_absorb_negative_eval.1 (-5) DebtState.init (by norm_num)

/-- C3 counterexample: delivering the 4.0 frozen seconds as four `update(1.0)`
calls does NOT leave debt 6.0 / tier 2.  Once the debt passes 3 the manager
is at tier 2, whose interest rate is 1.25, so the fourth second of freezing
accrues `1.5 × 1.25 = 1.875` and the total is `6.375` (tier 3). -/
theorem C3_scenario_counterexample :
    ([1, 1, 1, 1] : List ℚ).sum = 4 ∧
    (([1, 1, 1, 1] : List ℚ).foldl (fun e dt => TimeEngine.update dt e)
        (TimeEngine.freeze TimeEngine.init)).debt.current_debt = 51/8 ∧
    (([1, 1, 1, 1] : List ℚ).foldl (fun e dt => TimeEngine.update dt e)
        (TimeEngine.freeze TimeEngine.init)).debt.current_tier = 3 ∧
    ¬ (([1, 1, 1, 1] : List ℚ).foldl (fun e dt => TimeEngine.update dt e)
        (TimeEngine.freeze TimeEngine.init)).debt.current_debt = 6 ∧
    ¬ (([1, 1, 1, 1] : List ℚ).foldl (fun e dt => TimeEngine.update dt e)
        (TimeEngine.freeze TimeEngine.init)).debt.current_tier = 2 := by
  norm_num [TimeEngine.update, TimeEngine.freeze, TimeEngine.init, DebtState.init,
    accrue_debt, update_tier, new_tier_of, get_interest_rate, tier_interest,
    DEBT_ACCRUAL_RATE, trigger_bankruptcy, BANKRUPTCY_THRESHOLD, max_def, min_def,
    TimeEngine.update_time_scale, get_world_speed_multiplier, tier_speed]

/-- C3 amended: starting fresh at debt 0, `freeze()` followed by a SINGLE
`update(4.0)` (so that the whole accrual happens at tier-0 interest 1.0)
leaves debt exactly 6.0 and tier 2; after `unfreeze()`, any sequence of
flowing `update(dt)` calls with nonnegative `dt`s summing to 6.0 seconds of
real time brings the debt to exactly 0.0 and the tier to 0.  (Splitting the
4.0 frozen seconds across several updates can end above 6.0, since tier-2
interest 1.25 applies to accruals once the debt exceeds 3 — see the
counterexample.) -/
theorem C3_amended_scenario (ds : List ℚ) (h0 : ∀ x ∈ ds, 0 ≤ x)
    (hsum : ds.sum = 6) :
    c3_freeze_phase.debt.current_debt = 6 ∧
    c3_freeze_phase.debt.current_tier = 2 ∧
    (c3_flow_phase ds).debt.current_debt = 0 ∧
    (c3_flow_phase ds).debt.current_tier = 0 := by
  have h1 : TimeEngine.unfreeze c3_freeze_phase =
      { frozen := false
        time_scale := 3/2
        freeze_duration := 4
        total_freeze_time := 4
        last_game_dt := 0
        debt :=
          { current_debt := 6
            current_tier := 2
            is_bankrupt := false
            bankruptcy_timer := 0
            total_debt_accrued := 6
            total_debt_repaid := 0
            peak_debt := 6
            times_bankrupt := 0
            previous_tier := 2 } } := by
    norm_num [c3_freeze_phase, TimeEngine.update, TimeEngine.freeze, TimeEngine.init,
      TimeEngine.unfreeze, DebtState.init, accrue_debt, update_tier, new_tier_of,
      get_interest_rate, tier_interest, DEBT_ACCRUAL_RATE, trigger_bankruptcy,
      BANKRUPTCY_THRESHOLD, max_def, TimeEngine.update_time_scale,
      get_world_speed_multiplier, tier_speed]
  have h2 : c3_freeze_phase.debt.current_debt = 6 ∧
      c3_freeze_phase.debt.current_tier = 2 := by
    norm_num [c3_freeze_phase, TimeEngine.update, TimeEngine.freeze, TimeEngine.init,
      DebtState.init, accrue_debt, update_tier, new_tier_of, get_interest_rate,
      tier_interest, DEBT_ACCRUAL_RATE, trigger_bankruptcy, BANKRUPTCY_THRESHOLD,
      max_def]
  have h3 := engine_flow_fold ds (TimeEngine.unfreeze c3_freeze_phase) 6 h0
    (by rw [h1]) (by rw [h1]; norm_num) (by rw [h1]; norm_num [new_tier_of])
    (by rw [h1]) (by rw [h1])
  rw [hsum] at h3
  refine ⟨h2.1, h2.2, ?_, ?_⟩
  · have := h3.2.1
    rw [c3_flow_phase, this]
    norm_num
  · have := h3.2.2.1
    rw [c3_flow_phase, this]
    norm_num [new_tier_of]

/-- C3 witness: the amended scenario at the concrete flowing schedule
`[1, 2, 3]`. -/
theorem C3_amended_scenario_witness :
    (∀ x ∈ ([1, 2, 3] : List ℚ), 0 ≤ x) ∧ ([1, 2, 3] : List ℚ).sum = 6 ∧
    (c3_flow_phase [1, 2, 3]).debt.current_debt = 0 ∧
    (c3_flow_phase [1, 2, 3]).debt.current_tier = 0 := by
  have h0 : ∀ x ∈ ([1, 2, 3] : List ℚ), 0 ≤ x := by norm_num
  have hsum : ([1, 2, 3] : List ℚ).sum = 6 := by norm_num
  have h := C3_amended_scenario [1, 2, 3] h0 hsum
  exact ⟨h0, hsum, h.2.2.1, h.2.2.2⟩

/-- C4 counterexample: `freeze()` does not reset the cached `_last_game_dt`,
so in the state between `freeze()` and the next `update`, `frozen` is true
yet `get_game_dt()` still returns the pre-freeze value (here 1, from a
flowing `update(1.0)` on a fresh engine). -/
theorem C4_stale_game_dt_counterexample :
    (TimeEngine.freeze (TimeEngine.update 1 TimeEngine.init)).frozen = true ∧
    (TimeEngine.freeze (TimeEngine.update 1 TimeEngine.init)).get_game_dt = 1 ∧
    ¬ (TimeEngine.freeze (TimeEngine.update 1 TimeEngine.init)).get_game_dt = 0 := by
  norm_num [TimeEngine.update, TimeEngine.freeze, TimeEngine.init, DebtState.init,
    TimeEngine.get_game_dt, TimeEngine.update_time_scale, get_world_speed_multiplier,
    tier_speed, repay_debt]

/-- C4 amended: in every state produced by an `update(real_dt)` call made
while `frozen == true`, `get_game_dt()` returns exactly 0 regardless of
`real_dt` (and the engine is still frozen); likewise after `freeze()`
followed by any `update`.  Between a `freeze()` call and the next `update`,
however, `get_game_dt()` may still return the previous frame's nonzero
`game_dt`, because `freeze()` does not reset the cached value — see the
counterexample. -/
theorem C4_amended_frozen_game_dt :
    (∀ (e : TimeEngine) (dt : ℚ), e.frozen = true →
      (TimeEngine.update dt e).frozen = true ∧
      (TimeEngine.update dt e).get_game_dt = 0) ∧
    (∀ (e : TimeEngine) (dt : ℚ),
      (TimeEngine.update dt (TimeEngine.freeze e)).get_game_dt = 0) := by
  constructor
  · intro e dt h
    simp [TimeEngine.update, h, TimeEngine.get_game_dt]
  · intro e dt
    have hfr : (TimeEngine.freeze e).frozen = true := by
      unfold TimeEngine.freeze
      split_ifs with h
      · exact h
      · rfl
    simp [TimeEngine.update, hfr, TimeEngine.get_game_dt]

/-- C4 witness: the amended theorem applied to the frozen fresh engine at
`dt = 1`. -/
theorem C4_amended_frozen_game_dt_witness :
    (TimeEngine.freeze TimeEngine.init).frozen = true ∧
    (TimeEngine.update 1 (TimeEngine.freeze TimeEngine.init)).get_game_dt = 0 := by
  have hfr : (TimeEngine.freeze TimeEngine.init).frozen = true := by
    norm_num [TimeEngine.freeze, TimeEngine.init]
  exact ⟨hfr, (C4_amended_frozen_game_dt.1 (TimeEngine.freeze TimeEngine.init) 1 hfr).2⟩

/-- C5 (evaluation at the failing input): the `_timer < 0.1` guard in
`_update_wave_effects` fires on EVERY frozen frame whose cumulative Active
timer is still below 0.1s, not "once at wave start" as the code's own
comment says.  Entering the wave frozen and staying frozen for two 0.03125s
frames charges `FROZEN_PENALTY` twice within the same Active phase: after
the second frame `waves_penalized = 2` and the debt is 6.0, not 3.0. -/
theorem C5_double_penalty_eval :
    c5_entered.phase = .ACTIVE ∧
    c5_entered.waves_penalized = 0 ∧
    c5_entered.debt.current_debt = 0 ∧
    c5_frame1.phase = .ACTIVE ∧
    c5_frame1.waves_penalized = 1 ∧
    c5_frame1.debt.current_debt = 3 ∧
    c5_frame2.phase = .ACTIVE ∧
    c5_frame2.waves_penalized = 2 ∧
    c5_frame2.debt.current_debt = 6 := by
  norm_num [c5_frame2, c5_frame1, c5_entered, c5_warning_state, ResonanceSystem.update,
    update_wave_effects, start_wave, end_wave, start_warning, reset_cycle, lerp, clamp,
    WARNING_DURATION, WAVE_DURATION, AFTERMATH_DURATION, FROZEN_PENALTY, MOVING_BONUS,
    accrue_debt, update_tier, new_tier_of, get_interest_rate, tier_interest,
    trigger_bankruptcy, BANKRUPTCY_THRESHOLD, DebtState.init, max_def, min_def]

/-- C6: with all 3 slots occupied, `place_anchor` returns a new anchor at the
requested position (never `None`), installs it in a slot whose previous
occupant had minimal `remaining_time` among the occupied slots, and leaves
exactly 3 occupied slots. -/
theorem C6_place_anchor_eviction (s : AnchorSystem) (p : ℚ × ℚ)
    (hlen : s.anchors.length = 3)
    (hocc : ∀ o ∈ s.anchors, o.isSome = true) :
    ∃ (j : ℕ) (a old : TimeAnchor),
      j < 3 ∧
      place_anchor p s = (some a, { anchors := s.anchors.set j (some a) }) ∧
      a.position = p ∧ a.remaining_time = ANCHOR_DECAY_TIME ∧ a.index = j ∧
      s.anchors.getD j none = some old ∧
      (∀ o ∈ s.anchors, ∀ b : TimeAnchor, o = some b →
        old.remaining_time ≤ b.remaining_time) ∧
      (place_anchor p s).2.anchors.length = 3 ∧
      (∀ o ∈ (place_anchor p s).2.anchors, o.isSome = true) := by
  obtain ⟨l⟩ := s
  obtain ⟨x0, x1, x2, hl⟩ := List.length_eq_three.mp hlen
  subst hl
  obtain ⟨a0, rfl⟩ := Option.isSome_iff_exists.mp (hocc x0 (by simp))
  obtain ⟨a1, rfl⟩ := Option.isSome_iff_exists.mp (hocc x1 (by simp))
  obtain ⟨a2, rfl⟩ := Option.isSome_iff_exists.mp (hocc x2 (by simp))
  have henum : ([some a0, some a1, some a2] : List (Option TimeAnchor)).enum =
      [(0, some a0), (1, some a1), (2, some a2)] := rfl
  by_cases h1 : a1.remaining_time < a0.remaining_time
  · by_cases h2 : a2.remaining_time < a1.remaining_time
    · refine ⟨2, ⟨p, 0, ANCHOR_DECAY_TIME, 2⟩, a2, by norm_num, ?_, rfl, rfl, rfl,
        by simp, ?_, by simp [place_anchor, first_empty_slot, find_oldest_anchor,
          henum, find_oldest_aux, h1, h2, remove_anchor, MAX_ANCHORS], ?_⟩
      · simp [place_anchor, first_empty_slot, find_oldest_anchor, henum,
          find_oldest_aux, h1, h2, remove_anchor, MAX_ANCHORS]
      · intro o ho b hob
        simp only [List.mem_cons, List.not_mem_nil, or_false] at ho
        rcases ho with rfl | rfl | rfl <;> rw [Option.some.injEq] at hob <;>
          subst hob <;> linarith
      · intro o ho
        simp [place_anchor, first_empty_slot, find_oldest_anchor, henum,
          find_oldest_aux, h1, h2, remove_anchor, MAX_ANCHORS] at ho
        rcases ho with rfl | rfl | rfl <;> rfl
    · refine ⟨1, ⟨p, 0, ANCHOR_DECAY_TIME, 1⟩, a1, by norm_num, ?_, rfl, rfl, rfl,
        by simp, ?_, by simp [place_anchor, first_empty_slot, find_oldest_anchor,
          henum, find_oldest_aux, h1, h2, remove_anchor, MAX_ANCHORS], ?_⟩
      · simp [place_anchor, first_empty_slot, find_oldest_anchor, henum,
          find_oldest_aux, h1, h2, remove_anchor, MAX_ANCHORS]
      · intro o ho b hob
        simp only [List.mem_cons, List.not_mem_nil, or_false] at ho
        rcases ho with rfl | rfl | rfl <;> rw [Option.some.injEq] at hob <;>
          subst hob <;> linarith
      · intro o ho
        simp [place_anchor, first_empty_slot, find_oldest_anchor, henum,
          find_oldest_aux, h1, h2, remove_anchor, MAX_ANCHORS] at ho
        rcases ho with rfl | rfl | rfl <;> rfl
  · by_cases h2 : a2.remaining_time < a0.remaining_time
    · refine ⟨2, ⟨p, 0, ANCHOR_DECAY_TIME, 2⟩, a2, by norm_num, ?_, rfl, rfl, rfl,
        by simp, ?_, by simp [place_anchor, first_empty_slot, find_oldest_anchor,
          henum, find_oldest_aux, h1, h2, remove_anchor, MAX_ANCHORS], ?_⟩
      · simp [place_anchor, first_empty_slot, find_oldest_anchor, henum,
          find_oldest_aux, h1, h2, remove_anchor, MAX_ANCHORS]
      · intro o ho b hob
        simp only [List.mem_cons, List.not_mem_nil, or_false] at ho
        rcases ho with rfl | rfl | rfl <;> rw [Option.some.injEq] at hob <;>
          subst hob <;> push_neg at h1 <;> linarith
      · intro o ho
        simp [place_anchor, first_empty_slot, find_oldest_anchor, henum,
          find_oldest_aux, h1, h2, remove_anchor, MAX_ANCHORS] at ho
        rcases ho with rfl | rfl | rfl <;> rfl
    · refine ⟨0, ⟨p, 0, ANCHOR_DECAY_TIME, 0⟩, a0, by norm_num, ?_, rfl, rfl, rfl,
        by simp, ?_, by simp [place_anchor, first_empty_slot, find_oldest_anchor,
          henum, find_oldest_aux, h1, h2, remove_anchor, MAX_ANCHORS], ?_⟩
      · simp [place_anchor, first_empty_slot, find_oldest_anchor, henum,
          find_oldest_aux, h1, h2, remove_anchor, MAX_ANCHORS]
      · intro o ho b hob
        simp only [List.mem_cons, List.not_mem_nil, or_false] at ho
        rcases ho with rfl | rfl | rfl <;> rw [Option.some.injEq] at hob <;>
          subst hob <;> push_neg at h1 h2 <;> linarith
      · intro o ho
        simp [place_anchor, first_empty_slot, find_oldest_anchor, henum,
          find_oldest_aux, h1, h2, remove_anchor, MAX_ANCHORS] at ho
        rcases ho with rfl | rfl | rfl <;> rfl

/-- C6 witness: the eviction law at the concrete fully occupied board
`c6_sys` and position `(4, 4)`. -/
theorem C6_place_anchor_eviction_witness :
    ∃ (j : ℕ) (a old : TimeAnchor),
      j < 3 ∧
      place_anchor (4, 4) c6_sys = (some a, { anchors := c6_sys.anchors.set j (some a) }) ∧
      a.position = (4, 4) ∧ a.remaining_time = ANCHOR_DECAY_TIME ∧ a.index = j ∧
      c6_sys.anchors.getD j none = some old ∧
      (∀ o ∈ c6_sys.anchors, ∀ b : TimeAnchor, o = some b →
        old.remaining_time ≤ b.remaining_time) ∧
      (place_anchor (4, 4) c6_sys).2.anchors.length = 3 ∧
      (∀ o ∈ (place_anchor (4, 4) c6_sys).2.anchors, o.isSome = true) :=
  C6_place_anchor_eviction c6_sys (4, 4) rfl (by
    intro o ho
    simp only [c6_sys, List.mem_cons, List.not_mem_nil, or_false] at ho
    rcases ho with rfl | rfl | rfl <;> rfl)

/-- C7: whenever `can_rewind` holds (and the snapshot buffer is
time-ordered, as `record_state` keeps it), `initiate_rewind()` returns the
snapshot with the greatest timestamp not exceeding
`recording_time - REWIND_DURATION` — or the oldest stored snapshot when no
snapshot is that old — charges `DEBT_COST` through `accrue_debt`, and
decrements `uses_remaining` by exactly 1. -/
theorem C7_initiate_rewind_spec (s : TimeReversalSystem) (d : DebtState)
    (hcr : can_rewind s = true)
    (hsort : s.snapshots.Pairwise (fun a b => a.timestamp ≤ b.timestamp)) :
    ∃ snap : GameStateSnapshot,
      initiate_rewind s d =
        (some snap,
         { s with is_rewinding := true
                  rewind_timer := 0
                  target_snapshot := some snap
                  uses_remaining := s.uses_remaining - 1
                  total_uses := s.total_uses + 1 },
         accrue_debt DEBT_COST d) ∧
      snap ∈ s.snapshots ∧
      ((∃ x ∈ s.snapshots, x.timestamp ≤ s.recording_time - REWIND_DURATION) →
        snap.timestamp ≤ s.recording_time - REWIND_DURATION ∧
        ∀ y ∈ s.snapshots, y.timestamp ≤ s.recording_time - REWIND_DURATION →
          y.timestamp ≤ snap.timestamp) ∧
      ((∀ x ∈ s.snapshots, ¬ x.timestamp ≤ s.recording_time - REWIND_DURATION) →
        s.snapshots.head? = some snap) := by
  by_cases hex : ∃ x ∈ s.snapshots, x.timestamp ≤ s.recording_time - REWIND_DURATION
  · obtain ⟨m, hm1, hm2, hm3, hm4⟩ :=
      pick_target_found (s.recording_time - REWIND_DURATION) s.snapshots hsort hex none
    refine ⟨m, ?_, hm2, fun _ => ⟨hm3, hm4⟩, fun hno => ?_⟩
    · simp only [initiate_rewind, hcr, Bool.not_true, Bool.false_eq_true, if_false, hm1]
    · obtain ⟨x, hx, hxt⟩ := hex
      exact absurd hxt (hno x hx)
  · have hnone : ∀ x ∈ s.snapshots, ¬ x.timestamp ≤ s.recording_time - REWIND_DURATION :=
      fun x hx hxt => hex ⟨x, hx, hxt⟩
    have hpick := pick_target_none_of (s.recording_time - REWIND_DURATION)
      s.snapshots hnone none
    have hlen : 10 ≤ s.snapshots.length := by
      unfold can_rewind at hcr
      simp only [Bool.and_eq_true, decide_eq_true_eq] at hcr
      exact hcr.1.2
    obtain ⟨h0, hh⟩ : ∃ h0, s.snapshots.head? = some h0 := by
      cases hsnap : s.snapshots with
      | nil =>
        rw [hsnap] at hlen
        simp at hlen
      | cons a rest => exact ⟨a, rfl⟩
    refine ⟨h0, ?_, ?_, fun hex2 => absurd hex2 hex, fun _ => hh⟩
    · simp only [initiate_rewind, hcr, Bool.not_true, Bool.false_eq_true, if_false,
        hpick, hh]
    · exact List.mem_of_mem_head? (hh ▸ rfl)

/-- C7 witness: the concrete buffer `c7_sys` (timestamps 1..10, ten seconds
recorded): the window target is 7, and the spec instantiates there. -/
theorem C7_initiate_rewind_spec_witness :
    can_rewind c7_sys = true ∧
    ∃ snap : GameStateSnapshot,
      initiate_rewind c7_sys DebtState.init =
        (some snap,
         { c7_sys with is_rewinding := true
                       rewind_timer := 0
                       target_snapshot := some snap
                       uses_remaining := c7_sys.uses_remaining - 1
                       total_uses := c7_sys.total_uses + 1 },
         accrue_debt DEBT_COST DebtState.init) ∧
      snap ∈ c7_sys.snapshots ∧
      ((∃ x ∈ c7_sys.snapshots,
          x.timestamp ≤ c7_sys.recording_time - REWIND_DURATION) →
        snap.timestamp ≤ c7_sys.recording_time - REWIND_DURATION ∧
        ∀ y ∈ c7_sys.snapshots,
          y.timestamp ≤ c7_sys.recording_time - REWIND_DURATION →
          y.timestamp ≤ snap.timestamp) ∧
      ((∀ x ∈ c7_sys.snapshots,
          ¬ x.timestamp ≤ c7_sys.recording_time - REWIND_DURATION) →
        c7_sys.snapshots.head? = some snap) := by
  have hcr : can_rewind c7_sys = true := by
    unfold can_rewind c7_sys
    norm_num
  have hsort : c7_sys.snapshots.Pairwise (fun a b => a.timestamp ≤ b.timestamp) := by
    unfold c7_sys
    simp only [List.pairwise_cons, List.mem_cons, List.not_mem_nil, or_false,
      List.Pairwise.nil, and_true]
    norm_num [snap_at]
  exact ⟨hcr, C7_initiate_rewind_spec c7_sys DebtState.init hcr hsort⟩

/-- C8: calling an unavailable action is a safe no-op returning a sentinel:
`recall_to_anchor(i)` with `i` outside `[0, 2]` or with slot `i` empty
returns `None`, charges no debt and modifies no slot; `initiate_rewind()`
with `can_rewind` false returns `None` and changes no state. -/
theorem C8_unavailable_safe_noop :
    (∀ (i : ℤ) (s : AnchorSystem) (d : DebtState),
      i < 0 ∨ 3 ≤ i ∨ s.anchors.getD i.toNat none = none →
      recall_to_anchor i s d = (none, s, d)) ∧
    (∀ (s : TimeReversalSystem) (d : DebtState),
      can_rewind s = false → initiate_rewind s d = (none, s, d)) := by
  constructor
  · intro i s d h
    unfold recall_to_anchor MAX_ANCHORS
    rcases h with h | h | h
    · rw [if_pos (Or.inl h)]
    · rw [if_pos (Or.inr h)]
    · split_ifs with hc
      · rfl
      · rw [h]
  · intro s d h
    unfold initiate_rewind
    rw [h]
    rfl

/-- C8 witness: a negative index, an index past the 3 slots, an empty slot 0
on a fresh board, and a fresh reversal system with an empty buffer. -/
theorem C8_unavailable_safe_noop_witness :
    recall_to_anchor (-1) AnchorSystem.init DebtState.init =
      (none, AnchorSystem.init, DebtState.init) ∧
    recall_to_anchor 5 AnchorSystem.init DebtState.init =
      (none, AnchorSystem.init, DebtState.init) ∧
    recall_to_anchor 0 AnchorSystem.init DebtState.init =
      (none, AnchorSystem.init, DebtState.init) ∧
    initiate_rewind TimeReversalSystem.init DebtState.init =
      (none, TimeReversalSystem.init, DebtState.init) :=
  ⟨C8_unavailable_safe_noop.1 (-1) AnchorSystem.init DebtState.init
      (Or.inl (by norm_num)),
   C8_unavailable_safe_noop.1 5 AnchorSystem.init DebtState.init
      (Or.inr (Or.inl (by norm_num))),
   C8_unavailable_safe_noop.1 0 AnchorSystem.init DebtState.init
      (Or.inr (Or.inr rfl)),
   C8_unavailable_safe_noop.2 TimeReversalSystem.init DebtState.init rfl⟩

/-- C9: over any sequence of `update(dt)` calls with `dt ≥ 0` interleaved
with freeze/unfreeze events, the momentum stays within `[0, MAX_MOMENTUM]`
and the derived `debt_reduction_multiplier` stays within `[0.5, 1.0]`. -/
theorem C9_momentum_invariant (ops : List MomentumOp)
    (h : ∀ o ∈ ops, ∀ dt : ℚ, o = .step dt → 0 ≤ dt) :
    0 ≤ (runMomentum ops MomentumSystem.init).momentum ∧
    (runMomentum ops MomentumSystem.init).momentum ≤ MAX_MOMENTUM ∧
    1/2 ≤ debt_reduction_multiplier (runMomentum ops MomentumSystem.init) ∧
    debt_reduction_multiplier (runMomentum ops MomentumSystem.init) ≤ 1 := by
  have hb := runMomentum_bounds ops MomentumSystem.init h
    (by norm_num [MomentumSystem.init]) (by norm_num [MomentumSystem.init, MAX_MOMENTUM])
  have hm := multiplier_bounds _ hb.1
  exact ⟨hb.1, hb.2, hm.1, hm.2⟩

/-- C9 witness: a concrete run building for 1s, then a freeze event and a
2s drain. -/
theorem C9_momentum_invariant_witness :
    0 ≤ (runMomentum [.step 1, .freezeEvt, .step 2] MomentumSystem.init).momentum ∧
    (runMomentum [.step 1, .freezeEvt, .step 2] MomentumSystem.init).momentum ≤
      MAX_MOMENTUM ∧
    1/2 ≤ debt_reduction_multiplier
      (runMomentum [.step 1, .freezeEvt, .step 2] MomentumSystem.init) ∧
    debt_reduction_multiplier
      (runMomentum [.step 1, .freezeEvt, .step 2] MomentumSystem.init) ≤ 1 :=
  C9_momentum_invariant [.step 1, .freezeEvt, .step 2] (by
    intro o ho dt h
    simp only [List.mem_cons, List.not_mem_nil, or_false] at ho
    rcases ho with rfl | rfl | rfl
    · injection h with h2
      rw [← h2]
      norm_num
    · exact MomentumOp.noConfusion h
    · injection h with h2
      rw [← h2]
      norm_num)

/-- C10: whenever `current_debt ≤ 0`, `repay_debt` returns immediately and
changes no state at all (the bankruptcy survival timer does not advance and
`is_bankrupt` stays as it was); `absorb_debt` never touches `is_bankrupt`;
hence a bankrupt state whose debt was drained to exactly 0 stays bankrupt
under any sequence of `repay_debt` calls. -/
theorem C10_repay_noop_bankruptcy_stuck :
    (∀ (s : DebtState) (dt : ℚ), s.current_debt ≤ 0 → repay_debt dt s = s) ∧
    (∀ (s : DebtState) (a : ℚ), (absorb_debt a s).2.is_bankrupt = s.is_bankrupt) ∧
    (∀ (s : DebtState) (dts : List ℚ), s.current_debt = 0 → s.is_bankrupt = true →
      dts.foldl (fun acc dt => repay_debt dt acc) s = s ∧
      (dts.foldl (fun acc dt => repay_debt dt acc) s).is_bankrupt = true) := by
  have h1 : ∀ (s : DebtState) (dt : ℚ), s.current_debt ≤ 0 → repay_debt dt s = s := by
    intro s dt h
    unfold repay_debt
    rw [if_pos h]
  refine ⟨h1, ?_, ?_⟩
  · intro s a
    have hrw : (absorb_debt a s).2 =
        update_tier { s with current_debt := s.current_debt - min a s.current_debt } :=
      rfl
    rw [hrw, update_tier_is_bankrupt]
  · intro s dts h0 hb
    have hfold : ∀ (l : List ℚ) (x : DebtState), x.current_debt = 0 →
        l.foldl (fun acc dt => repay_debt dt acc) x = x := by
      intro l
      induction l with
      | nil => intro x _; rfl
      | cons dt rest ih =>
        intro x hx
        rw [List.foldl_cons, h1 x dt (le_of_eq hx)]
        exact ih x hx
    have heq := hfold dts s h0
    refine ⟨heq, ?_⟩
    rw [heq]
    exact hb

/-- C10 witness: the bankrupt zero-debt state `c10_state` is a fixed point
of `repay_debt` and keeps its bankruptcy through `absorb_debt` and repay
sequences. -/
theorem C10_repay_noop_bankruptcy_stuck_witness :
    repay_debt 1 c10_state = c10_state ∧
    (absorb_debt 5 c10_state).2.is_bankrupt = c10_state.is_bankrupt ∧
    ([1, 2] : List ℚ).foldl (fun acc dt => repay_debt dt acc) c10_state = c10_state ∧
    (([1, 2] : List ℚ).foldl (fun acc dt => repay_debt dt acc) c10_state).is_bankrupt =
      true := by
  have h := C10_repay_noop_bankruptcy_stuck
  have h3 := h.2.2 c10_state [1, 2] rfl rfl
  exact ⟨h.1 c10_state 1 (by norm_num [c10_state, DebtState.init]),
    h.2.1 c10_state 5, h3.1, h3.2⟩

end TemporalDebt
